import Mathlib

/-!
Shallow embedding of `src/lib/dialects/mysql.ts` (the MySQL dialect of the
knex-schema-inspector module).

The database connection is modelled as an immutable `Catalog` value holding the
rows of the catalog views the module queries (`information_schema.tables`,
`information_schema.columns`, `information_schema.key_column_usage`,
`information_schema.referential_constraints`, and the index listing behind
`SHOW KEYS`), together with the currently selected database name
(`knex.client.database()`).  Each method of the `MySQL` class becomes a pure
function of a `Catalog`; a query that the database server would reject, or a
JavaScript fault such as a property access on `undefined`, is returned as
`Except.error`.
-/

namespace MySQL

/-- Faults a call can surface: an error reported by the database server for a
bad query, or a JavaScript TypeError (property access on `undefined`). -/
inductive JsError where
  | sqlError (msg : String)
  | typeError (msg : String)
deriving DecidableEq

/-- A JavaScript value as far as truthiness (`!!v`) is concerned: `undefined`,
a function value, or a number. -/
inductive JsValue where
  | undefined
  | func
  | num (n : Nat)
deriving DecidableEq

/-- Truthiness of a JavaScript value: `undefined` is falsy, a function is
truthy, a number is truthy iff nonzero. -/
def JsValue.truthy : JsValue → Bool
  | .undefined => false
  | .func => true
  | .num n => n != 0

/-- One row of `information_schema.tables`. -/
structure TablesRow where
  table_name : String
  table_schema : String
  table_type : String
  table_comment : Option String
  engine : String
  table_collation : String
deriving DecidableEq

/-- One row of `information_schema.columns`.  `IS_NULLABLE` is typed `boolean`
and `COLUMN_DEFAULT` `any | null` in the source's `RawColumn`; the default is
modelled as an optional string since the mapping only passes it through. -/
structure ColumnsRow where
  table_schema : String
  table_name : String
  column_name : String
  column_default : Option String
  data_type : String
  character_maximum_length : Option Int
  is_nullable : Bool
  collation_name : Option String
  column_comment : Option String
  column_key : Option String
  extra : Option String
deriving DecidableEq

/-- One row of `information_schema.key_column_usage` (aliased `fk` in the
source's join). -/
structure KeyColumnUsageRow where
  constraint_schema : String
  constraint_name : String
  table_schema : String
  table_name : String
  column_name : String
  referenced_table_name : Option String
  referenced_column_name : Option String
deriving DecidableEq

/-- One row of `information_schema.referential_constraints` (aliased `rc`). -/
structure ReferentialConstraintsRow where
  constraint_schema : String
  constraint_name : String
  table_name : String
  update_rule : String
  delete_rule : String
  match_option : String
deriving DecidableEq

/-- One row of the per-table index listing that `SHOW KEYS FROM t` reads
(MySQL surfaces `information_schema.statistics` this way): the table the key
belongs to, the key name (`PRIMARY` for the primary key) and the column. -/
structure StatisticsRow where
  table_name : String
  key_name : String
  column_name : String
deriving DecidableEq

/-- The catalog state of the connected database: the selected database name and
the rows of each catalog view the module queries. -/
structure Catalog where
  database : String
  tables : List TablesRow
  columns : List ColumnsRow
  key_column_usage : List KeyColumnUsageRow
  referential_constraints : List ReferentialConstraintsRow
  statistics : List StatisticsRow
deriving DecidableEq

/-- The output `Table` shape (src/lib/types/table mapped in `tableInfo`). -/
structure Table where
  name : String
  schema : String
  comment : Option String
  collation : String
  engine : String
deriving DecidableEq

/-- The output `Column` shape built by `columnInfo` (the commented-out
`onDelete` / `onUpdate` lines of the source are omitted there too). -/
structure Column where
  name : String
  table : String
  type : String
  default_value : Option String
  max_length : Option Int
  is_nullable : Bool
  is_primary_key : Bool
  has_auto_increment : Bool
  foreign_key_column : Option String
  foreign_key_table : Option String
  comment : Option String
deriving DecidableEq

/-- The column names `information_schema.tables` actually has (the ones a
select list or where clause may reference). -/
def tablesCatalogColumns : List String :=
  ["table_catalog", "table_schema", "table_name", "table_type", "engine",
   "version", "row_format", "table_rows", "avg_row_length", "data_length",
   "max_data_length", "index_length", "data_free", "auto_increment",
   "create_time", "update_time", "check_time", "table_collation", "checksum",
   "create_options", "table_comment"]

/-- The select list of `tables()` in the source: the single (misspelled)
column name `table_namename`. -/
def tablesSelectList : List String := ["table_namename"]

/-- `tables()` from the source: selects `tablesSelectList` from
`information_schema.tables` where `table_type = 'BASE TABLE'` and
`table_schema` is the current database, then maps each record to its
`table_name` property.  Executing the select fails when a selected column does
not exist in the catalog view; if it did succeed, each returned record would
carry only the selected columns, so destructuring `table_name` from it yields
`undefined` (`none`) unless `table_name` was selected. -/
def tables (db : Catalog) : Except JsError (List (Option String)) :=
  if tablesSelectList.all tablesCatalogColumns.contains then
    .ok ((db.tables.filter (fun r =>
      r.table_type == "BASE TABLE" && r.table_schema == db.database)).map
        (fun r => if tablesSelectList.contains "table_name" then some r.table_name else none))
  else
    .error (.sqlError "ER_BAD_FIELD_ERROR: Unknown column in field list")

/-- The where-filter of the query shared by both forms of `tableInfo`:
current schema and `table_type = 'BASE TABLE'`. -/
def tableInfoWhere (db : Catalog) (r : TablesRow) : Bool :=
  r.table_schema == db.database && r.table_type == "BASE TABLE"

/-- `tableInfo(table)` from the source (the single-table overload): adds an
equality filter on `table_name` and takes the first row.  The source then
reads `rawTable.TABLE_NAME` etc. without checking for `undefined`, so when no
row matched, the call faults with a TypeError. -/
def tableInfo (db : Catalog) (table : String) : Except JsError Table :=
  match ((db.tables.filter (tableInfoWhere db)).filter
      (fun r => r.table_name == table)).head? with
  | none => .error (.typeError "Cannot read property TABLE_NAME of undefined")
  | some rawTable =>
    .ok { name := rawTable.table_name
          schema := rawTable.table_schema
          comment := rawTable.table_comment
          collation := rawTable.table_collation
          engine := rawTable.engine }

/-- A knex count-query builder value.  `pending` records what awaiting the
built query would produce (the count, or the server's error for a bad query).
The source never awaits it. -/
structure CountBuilder where
  pending : Except JsError Nat

/-- JavaScript property lookup `builder.count` on an un-awaited query builder:
the builder object has no own `count` result field (the query never ran), but
the lookup reaches the builder's own `count` method on its prototype, a
function value. -/
def CountBuilder.countProp (_ : CountBuilder) : JsValue := .func

/-- `hasTable(table)` from the source.  The count query (rows of
`information_schema.tables` with the current schema and the given name) is
built but never awaited: `const { count } = ...` destructures the builder
object itself, so `count` binds the builder's `count` method and `!!count` is
`true` for every input. -/
def hasTable (db : Catalog) (table : String) : Bool :=
  let builder : CountBuilder :=
    { pending := .ok ((db.tables.filter (fun r =>
        r.table_schema == db.database && r.table_name == table)).length) }
  builder.countProp.truthy

/-- `hasColumn(table, column)` from the source.  The count query filters
`information_schema.tables` (not `information_schema.columns`) by
`table_schema`, `table_name` and `column_name`; that view has no `column_name`
column, so awaiting the query would fail.  As in `hasTable`, the query is
never awaited: the destructured `count` is the builder's `count` method, and
the result is `true` for every input. -/
def hasColumn (db : Catalog) (table : String) (column : String) : Bool :=
  let builder : CountBuilder :=
    { pending :=
        if tablesCatalogColumns.contains "column_name" then
          .ok ((db.tables.filter (fun r =>
            r.table_schema == db.database && r.table_name == table)).length)
        else
          .error (.sqlError "ER_BAD_FIELD_ERROR: Unknown column in where clause") }
  builder.countProp.truthy

/-- The first join condition of `columnInfo` as written in the source:
`fk.TABLE_NAME = fk.TABLE_NAME` (comparing the key-usage row's table name to
itself), `fk.COLUMN_NAME = c.COLUMN_NAME`, and
`fk.CONSTRAINT_SCHEMA = c.TABLE_SCHEMA`. -/
def fkOn (c : ColumnsRow) (fk : KeyColumnUsageRow) : Bool :=
  fk.table_name == fk.table_name
    && fk.column_name == c.column_name
    && fk.constraint_schema == c.table_schema

/-- The second join condition of `columnInfo`: `rc.TABLE_NAME = fk.TABLE_NAME`,
`rc.CONSTRAINT_NAME = fk.CONSTRAINT_NAME`,
`rc.CONSTRAINT_SCHEMA = fk.CONSTRAINT_SCHEMA`. -/
def rcOn (fk : KeyColumnUsageRow) (rc : ReferentialConstraintsRow) : Bool :=
  rc.table_name == fk.table_name
    && rc.constraint_name == fk.constraint_name
    && rc.constraint_schema == fk.constraint_schema

/-- Left join of one column row against `key_column_usage`: the matching rows,
or a single `none` (an all-NULL right side) when nothing matches. -/
def fkJoin (db : Catalog) (c : ColumnsRow) : List (Option KeyColumnUsageRow) :=
  let fks := db.key_column_usage.filter (fkOn c)
  if fks.isEmpty then [none] else fks.map some

/-- Left join of one (possibly NULL) key-usage row against
`referential_constraints`: when the key-usage side is NULL the join condition
references NULL and matches nothing, so the right side is NULL too. -/
def rcJoin (db : Catalog) : Option KeyColumnUsageRow →
    List (Option ReferentialConstraintsRow)
  | none => [none]
  | some fk =>
    let rcs := db.referential_constraints.filter (rcOn fk)
    if rcs.isEmpty then [none] else rcs.map some

/-- One row of the join `c LEFT JOIN fk LEFT JOIN rc` built by `columnInfo`. -/
structure JoinedRow where
  c : ColumnsRow
  fk : Option KeyColumnUsageRow
  rc : Option ReferentialConstraintsRow
deriving DecidableEq

/-- The where-filter of `columnInfo`: `c.TABLE_SCHEMA` is the current database
always, `c.TABLE_NAME = table` when a table is given, `c.column_name = column`
when a column is given.  All three restrict only the left (column) side, so
applying them before the left joins is equivalent to the source's WHERE. -/
def columnInfoWhere (db : Catalog) (table? : Option String)
    (column? : Option String) (c : ColumnsRow) : Bool :=
  c.table_schema == db.database
    && (match table? with | none => true | some t => c.table_name == t)
    && (match column? with | none => true | some col => c.column_name == col)

/-- The joined, filtered row set of `columnInfo`'s query. -/
def joinedRows (db : Catalog) (table? : Option String)
    (column? : Option String) : List JoinedRow :=
  (db.columns.filter (columnInfoWhere db table? column?)).flatMap (fun c =>
    (fkJoin db c).flatMap (fun fk? =>
      (rcJoin db fk?).map (fun rc? => { c := c, fk := fk?, rc := rc? })))

/-- The `RawColumn` record of the source: the select list of `columnInfo`
projected out of one joined row.  Fields taken from the `fk` or `rc` side are
NULL (`none`) when that side of the left join is NULL. -/
structure RawColumn where
  TABLE_NAME : String
  COLUMN_NAME : String
  COLUMN_DEFAULT : Option String
  DATA_TYPE : String
  CHARACTER_MAXIMUM_LENGTH : Option Int
  IS_NULLABLE : Bool
  COLUMN_KEY : Option String
  EXTRA : Option String
  COLLATION_NAME : Option String
  COLUMN_COMMENT : Option String
  REFERENCED_TABLE_NAME : Option String
  REFERENCED_COLUMN_NAME : Option String
  CONSTRAINT_NAME : Option String
  UPDATE_RULE : Option String
  DELETE_RULE : Option String
  MATCH_OPTION : Option String
deriving DecidableEq

/-- The select list of `columnInfo` applied to one joined row. -/
def selectRaw (jr : JoinedRow) : RawColumn :=
  { TABLE_NAME := jr.c.table_name
    COLUMN_NAME := jr.c.column_name
    COLUMN_DEFAULT := jr.c.column_default
    DATA_TYPE := jr.c.data_type
    CHARACTER_MAXIMUM_LENGTH := jr.c.character_maximum_length
    IS_NULLABLE := jr.c.is_nullable
    COLUMN_KEY := jr.c.column_key
    EXTRA := jr.c.extra
    COLLATION_NAME := jr.c.collation_name
    COLUMN_COMMENT := jr.c.column_comment
    REFERENCED_TABLE_NAME := jr.fk.bind (·.referenced_table_name)
    REFERENCED_COLUMN_NAME := jr.fk.bind (·.referenced_column_name)
    CONSTRAINT_NAME := jr.fk.map (·.constraint_name)
    UPDATE_RULE := jr.rc.map (·.update_rule)
    DELETE_RULE := jr.rc.map (·.delete_rule)
    MATCH_OPTION := jr.rc.map (·.match_option) }

/-- The raw-row-to-`Column` mapping of `columnInfo`'s single-column branch
(source lines 200-214). -/
def mkColumnSingle (rawColumn : RawColumn) : Column :=
  { name := rawColumn.COLUMN_NAME
    table := rawColumn.TABLE_NAME
    type := rawColumn.DATA_TYPE
    default_value := rawColumn.COLUMN_DEFAULT
    max_length := rawColumn.CHARACTER_MAXIMUM_LENGTH
    is_nullable := rawColumn.IS_NULLABLE
    is_primary_key := rawColumn.CONSTRAINT_NAME == some "PRIMARY"
    has_auto_increment := rawColumn.EXTRA == some "auto_increment"
    foreign_key_column := rawColumn.REFERENCED_COLUMN_NAME
    foreign_key_table := rawColumn.REFERENCED_TABLE_NAME
    comment := rawColumn.COLUMN_COMMENT }

/-- The raw-row-to-`Column` mapping of `columnInfo`'s list branch (source
lines 219-237), translated separately from the single-column branch so the two
can be compared. -/
def mkColumnList (rawColumn : RawColumn) : Column :=
  { name := rawColumn.COLUMN_NAME
    table := rawColumn.TABLE_NAME
    type := rawColumn.DATA_TYPE
    default_value := rawColumn.COLUMN_DEFAULT
    max_length := rawColumn.CHARACTER_MAXIMUM_LENGTH
    is_nullable := rawColumn.IS_NULLABLE
    is_primary_key := rawColumn.CONSTRAINT_NAME == some "PRIMARY"
    has_auto_increment := rawColumn.EXTRA == some "auto_increment"
    foreign_key_column := rawColumn.REFERENCED_COLUMN_NAME
    foreign_key_table := rawColumn.REFERENCED_TABLE_NAME
    comment := rawColumn.COLUMN_COMMENT }

/-- `columnInfo()` / `columnInfo(table)` from the source (no column argument):
maps every joined row through the list branch's mapping. -/
def columnInfoList (db : Catalog) (table? : Option String) : List Column :=
  ((joinedRows db table? none).map selectRaw).map mkColumnList

/-- `columnInfo(table, column)` from the source (column argument given): adds
the equality filter on `c.column_name` and takes the first row.  The source
then reads `rawColumn.COLUMN_NAME` etc. without checking for `undefined`, so
when no row matched, the call faults with a TypeError. -/
def columnInfoSingle (db : Catalog) (table? : Option String)
    (column : String) : Except JsError Column :=
  match ((joinedRows db table? (some column)).map selectRaw).head? with
  | none => .error (.typeError "Cannot read property COLUMN_NAME of undefined")
  | some rawColumn => .ok (mkColumnSingle rawColumn)

/-- `primary(table)` from the source: `SHOW KEYS FROM table WHERE Key_name =
'PRIMARY'`, then `results[0][0]['Column_name']` — the first row's column name,
read without checking that a row exists, so a table with no primary key faults
with a TypeError. -/
def primary (db : Catalog) (table : String) : Except JsError String :=
  match (db.statistics.filter (fun k =>
      k.table_name == table && k.key_name == "PRIMARY")).head? with
  | none => .error (.typeError "Cannot read property Column_name of undefined")
  | some k => .ok k.column_name

/-- A base table `users` in schema `app`. -/
def usersTableRow : TablesRow :=
  { table_name := "users", table_schema := "app", table_type := "BASE TABLE"
    table_comment := none, engine := "InnoDB"
    table_collation := "utf8mb4_general_ci" }

/-- Column `users.id`, an auto-increment integer primary key. -/
def usersIdCol : ColumnsRow :=
  { table_schema := "app", table_name := "users", column_name := "id"
    column_default := none, data_type := "int"
    character_maximum_length := none, is_nullable := false
    collation_name := none, column_comment := none
    column_key := some "PRI", extra := some "auto_increment" }

/-- Column `users.org_id`, a foreign key into `orgs.id`. -/
def usersOrgIdCol : ColumnsRow :=
  { table_schema := "app", table_name := "users", column_name := "org_id"
    column_default := none, data_type := "int"
    character_maximum_length := none, is_nullable := true
    collation_name := none, column_comment := none
    column_key := none, extra := none }

/-- Key-usage row of the primary key on `users.id`. -/
def usersPkUsage : KeyColumnUsageRow :=
  { constraint_schema := "app", constraint_name := "PRIMARY"
    table_schema := "app", table_name := "users", column_name := "id"
    referenced_table_name := none, referenced_column_name := none }

/-- Key-usage row of the foreign key on `users.org_id` referencing `orgs.id`. -/
def orgIdFkUsage : KeyColumnUsageRow :=
  { constraint_schema := "app", constraint_name := "users_org_id_foreign"
    table_schema := "app", table_name := "users", column_name := "org_id"
    referenced_table_name := some "orgs"
    referenced_column_name := some "id" }

/-- Referential-constraint row of the foreign key on `users.org_id`. -/
def orgIdFkRc : ReferentialConstraintsRow :=
  { constraint_schema := "app", constraint_name := "users_org_id_foreign"
    table_name := "users", update_rule := "NO ACTION"
    delete_rule := "NO ACTION", match_option := "NONE" }

/-- Index row listed by `SHOW KEYS FROM users` for its primary key. -/
def usersPkStat : StatisticsRow :=
  { table_name := "users", key_name := "PRIMARY", column_name := "id" }

/-- A small concrete catalog: database `app` with the single base table
`users(id INT PRIMARY KEY AUTO_INCREMENT, org_id INT REFERENCES orgs(id))`. -/
def dbApp : Catalog :=
  { database := "app"
    tables := [usersTableRow]
    columns := [usersIdCol, usersOrgIdCol]
    key_column_usage := [usersPkUsage, orgIdFkUsage]
    referential_constraints := [orgIdFkRc]
    statistics := [usersPkStat] }

/-- Column `users.id` of the `dbCross` catalog: not a key of any kind. -/
def crossUsersIdCol : ColumnsRow :=
  { table_schema := "app", table_name := "users", column_name := "id"
    column_default := none, data_type := "int"
    character_maximum_length := none, is_nullable := true
    collation_name := none, column_comment := none
    column_key := none, extra := none }

/-- Key-usage row of the primary key on `orders.id` — a different table from
`users`, but the same column name and schema. -/
def crossOrdersPkUsage : KeyColumnUsageRow :=
  { constraint_schema := "app", constraint_name := "PRIMARY"
    table_schema := "app", table_name := "orders", column_name := "id"
    referenced_table_name := none, referenced_column_name := none }

/-- A catalog in which `users.id` is NOT a primary key, while the unrelated
table `orders` has a primary key on its own column named `id`. -/
def dbCross : Catalog :=
  { database := "app"
    tables := []
    columns := [crossUsersIdCol]
    key_column_usage := [crossOrdersPkUsage]
    referential_constraints := []
    statistics := [] }

/-!
Theorems settling the claims.
-/

/-- C1 (counterexample): in the `dbApp` catalog no table named `missing`
exists, yet `tableInfo` does not return an empty/absent result there — it
faults with a TypeError (the source reads `rawTable.TABLE_NAME` off the
`undefined` first row). -/
theorem tableInfo_missing_raises :
    dbApp.tables.filter (fun r => r.table_name == "missing") = []
    ∧ tableInfo dbApp "missing" =
        .error (.typeError "Cannot read property TABLE_NAME of undefined") :=
  ⟨rfl, rfl⟩

/-- C1 (amended): for every table name `t` with no matching base-table row in
the current schema, `tableInfo(t)` fails with a TypeError (field access on the
absent first row) instead of returning an empty/absent result. -/
theorem tableInfo_absent_is_typeError (db : Catalog) (t : String)
    (h : (db.tables.filter (tableInfoWhere db)).filter
        (fun r => r.table_name == t) = []) :
    tableInfo db t =
      .error (.typeError "Cannot read property TABLE_NAME of undefined") := by
  unfold tableInfo
  rw [h]
  rfl

theorem tableInfo_absent_is_typeError_witness :
    (dbApp.tables.filter (tableInfoWhere dbApp)).filter
        (fun r => r.table_name == "nope") = []
    ∧ tableInfo dbApp "nope" =
        .error (.typeError "Cannot read property TABLE_NAME of undefined") :=
  ⟨rfl, tableInfo_absent_is_typeError dbApp "nope" rfl⟩

/-- C2 (counterexample): in the `dbApp` catalog the table `users` has no
column `missing_col`, yet `columnInfo("users", "missing_col")` does not
return an absent result — it faults with a TypeError (the source reads
`rawColumn.COLUMN_NAME` off the `undefined` first row). -/
theorem columnInfo_missing_raises :
    dbApp.columns.filter (fun r =>
        r.table_name == "users" && r.column_name == "missing_col") = []
    ∧ columnInfoSingle dbApp (some "users") "missing_col" =
        .error (.typeError "Cannot read property COLUMN_NAME of undefined") :=
  ⟨rfl, rfl⟩

/-- C2 (amended): for every table name `t` and column name `c` with no
matching column row in the current schema, `columnInfo(t, c)` fails with a
TypeError (field access on the absent first row) instead of returning an
explicit not-found result. -/
theorem columnInfo_absent_is_typeError (db : Catalog) (t c : String)
    (h : db.columns.filter (columnInfoWhere db (some t) (some c)) = []) :
    columnInfoSingle db (some t) c =
      .error (.typeError "Cannot read property COLUMN_NAME of undefined") := by
  unfold columnInfoSingle joinedRows
  rw [h]
  rfl

theorem columnInfo_absent_is_typeError_witness :
    dbApp.columns.filter
        (columnInfoWhere dbApp (some "users") (some "missing_col")) = []
    ∧ columnInfoSingle dbApp (some "users") "missing_col" =
        .error (.typeError "Cannot read property COLUMN_NAME of undefined") :=
  ⟨rfl, columnInfo_absent_is_typeError dbApp "users" "missing_col" rfl⟩

/-- C3: `tables()` and `hasTable` do not agree on the set of existing tables.
In the `dbApp` catalog, `hasTable` returns `true` for the name `ghost` of a
table that does not exist (the count query is never awaited; the destructured
`count` is the builder's own truthy `count` method), while `tables()` cannot
return any name at all: its select names the nonexistent column
`table_namename`, so the query fails. -/
theorem tables_hasTable_disagree :
    hasTable dbApp "ghost" = true
    ∧ dbApp.tables.filter (fun r => r.table_name == "ghost") = []
    ∧ tables dbApp =
        .error (.sqlError "ER_BAD_FIELD_ERROR: Unknown column in field list") :=
  ⟨rfl, rfl, rfl⟩

/-- C4: `hasColumn` does not test column existence.  In the `dbApp` catalog,
no column `missing_col` exists on table `users`, yet
`hasColumn("users", "missing_col")` returns `true`: the count query (which,
besides, filters `information_schema.tables`, a view with no `column_name`
column) is never awaited, and the destructured `count` is the builder's own
truthy `count` method. -/
theorem hasColumn_missing_col_true :
    dbApp.columns.filter (fun r =>
        r.table_name == "users" && r.column_name == "missing_col") = []
    ∧ hasColumn dbApp "users" "missing_col" = true :=
  ⟨rfl, rfl⟩

/-- C5: `columnInfo(T, C)` can report `is_primary_key = true` for a column
that is not `T`'s primary key.  In the `dbCross` catalog, `users.id` is no key
at all and no key-usage row mentions table `users`; but because the source's
first join condition compares `fk.TABLE_NAME` with itself instead of with
`c.TABLE_NAME`, the PRIMARY key-usage row of `orders.id` attaches to
`users.id`, and `columnInfo("users", "id")` reports it as a primary key. -/
theorem columnInfo_pk_from_other_table :
    dbCross.key_column_usage.filter (fun k => k.table_name == "users") = []
    ∧ (columnInfoSingle dbCross (some "users") "id").toOption.map
        Column.is_primary_key = some true :=
  ⟨rfl, rfl⟩

/-- C6: the column-to-key-usage join does not match on the table name.  The
source's condition is `fk.TABLE_NAME = fk.TABLE_NAME` (a tautology), so the
column row `users.id` of `dbCross` joins to the key-usage row of `orders.id`
although the two table names differ.  (The second join, `rcOn`, does match on
table name, constraint name and constraint schema as the claim states.) -/
theorem fkOn_ignores_table_name :
    fkOn crossUsersIdCol crossOrdersPkUsage = true
    ∧ (crossUsersIdCol.table_name == crossOrdersPkUsage.table_name) = false :=
  ⟨rfl, rfl⟩

/-- C7: `tables()` returns no base-table names at all.  In the `dbApp`
catalog the base table `users` exists in the current schema, but the select
list names the nonexistent column `table_namename`, so the query fails with
an unknown-column error instead of producing the listing. -/
theorem tables_unknown_column_error :
    (dbApp.tables.filter (fun r =>
        r.table_type == "BASE TABLE" && r.table_schema == dbApp.database)).map
      (fun r => r.table_name) = ["users"]
    ∧ tables dbApp =
        .error (.sqlError "ER_BAD_FIELD_ERROR: Unknown column in field list") :=
  ⟨rfl, rfl⟩

/-- C8: for every table `t` whose key listing has exactly one row under the
`PRIMARY` key name (a declared single-column primary key on column
`k.column_name`), `primary(t)` returns that column's name. -/
theorem primary_returns_pk_column (db : Catalog) (t : String)
    (k : StatisticsRow)
    (h : db.statistics.filter (fun r =>
        r.table_name == t && r.key_name == "PRIMARY") = [k]) :
    primary db t = .ok k.column_name := by
  unfold primary
  rw [h]
  rfl

theorem primary_returns_pk_column_witness :
    dbApp.statistics.filter (fun r =>
        r.table_name == "users" && r.key_name == "PRIMARY") = [usersPkStat]
    ∧ primary dbApp "users" = .ok "id" :=
  ⟨rfl, primary_returns_pk_column dbApp "users" usersPkStat rfl⟩

/-- Every joined row either has a NULL key-usage side or carries a key-usage
row taken from the catalog. -/
theorem joinedRows_fk_mem (db : Catalog) (t? c? : Option String)
    (jr : JoinedRow) (h : jr ∈ joinedRows db t? c?) :
    jr.fk = none ∨ ∃ fk ∈ db.key_column_usage, jr.fk = some fk := by
  simp only [joinedRows, List.mem_flatMap, List.mem_map] at h
  obtain ⟨c, _, fk?, hfk, rc?, _, hjr⟩ := h
  subst hjr
  simp only
  unfold fkJoin at hfk
  by_cases he : (db.key_column_usage.filter (fkOn c)).isEmpty
  · rw [if_pos he] at hfk
    simp only [List.mem_singleton] at hfk
    exact Or.inl hfk
  · rw [if_neg he] at hfk
    simp only [List.mem_map] at hfk
    obtain ⟨fk, hmem, heq⟩ := hfk
    exact Or.inr ⟨fk, (List.mem_filter.mp hmem).1, heq.symm⟩

/-- The referenced-table and referenced-column fields projected out of a
joined row are either both NULL or both non-NULL, provided every key-usage
row of the catalog satisfies that invariant. -/
theorem selectRaw_ref_both_or_neither (db : Catalog) (t? c? : Option String)
    (h : ∀ fk ∈ db.key_column_usage,
      (fk.referenced_table_name = none ↔ fk.referenced_column_name = none))
    (jr : JoinedRow) (hjr : jr ∈ joinedRows db t? c?) :
    ((selectRaw jr).REFERENCED_TABLE_NAME = none ↔
     (selectRaw jr).REFERENCED_COLUMN_NAME = none) := by
  rcases joinedRows_fk_mem db t? c? jr hjr with hn | ⟨fk, hmem, hfk⟩
  · simp [selectRaw, hn]
  · simp only [selectRaw, hfk, Option.bind_some]
    exact h fk hmem

/-- C9: in every `Column` record produced by `columnInfo` — by the list branch
or by the single-column branch — `foreign_key_table` and `foreign_key_column`
are either both present or both absent, provided every key-usage row of the
catalog pairs its referenced table and referenced column (as the MySQL catalog
does: both are populated exactly for foreign-key constraints). -/
theorem columnInfo_fk_both_or_neither (db : Catalog)
    (h : ∀ fk ∈ db.key_column_usage,
      (fk.referenced_table_name = none ↔ fk.referenced_column_name = none)) :
    (∀ (t? : Option String) (col : Column), col ∈ columnInfoList db t? →
      (col.foreign_key_table = none ↔ col.foreign_key_column = none))
    ∧ (∀ (t? : Option String) (c : String) (col : Column),
      columnInfoSingle db t? c = .ok col →
      (col.foreign_key_table = none ↔ col.foreign_key_column = none)) := by
  constructor
  · intro t? col hcol
    simp only [columnInfoList, List.mem_map] at hcol
    obtain ⟨raw, ⟨jr, hjr, hraw⟩, hcol⟩ := hcol
    subst hraw
    subst hcol
    exact selectRaw_ref_both_or_neither db t? none h jr hjr
  · intro t? c col hok
    unfold columnInfoSingle at hok
    cases hh : ((joinedRows db t? (some c)).map selectRaw).head? with
    | none => rw [hh] at hok; exact absurd hok (by simp)
    | some raw =>
      rw [hh] at hok
      simp only [Except.ok.injEq] at hok
      subst hok
      have hraw : raw ∈ (joinedRows db t? (some c)).map selectRaw :=
        List.mem_of_mem_head? hh
      simp only [List.mem_map] at hraw
      obtain ⟨jr, hjr, hraw⟩ := hraw
      subst hraw
      exact selectRaw_ref_both_or_neither db t? (some c) h jr hjr

theorem columnInfo_fk_both_or_neither_witness :
    (∀ fk ∈ dbApp.key_column_usage,
      (fk.referenced_table_name = none ↔ fk.referenced_column_name = none))
    ∧ ((∀ (t? : Option String) (col : Column), col ∈ columnInfoList dbApp t? →
        (col.foreign_key_table = none ↔ col.foreign_key_column = none))
      ∧ (∀ (t? : Option String) (c : String) (col : Column),
        columnInfoSingle dbApp t? c = .ok col →
        (col.foreign_key_table = none ↔ col.foreign_key_column = none))) :=
  ⟨by decide, columnInfo_fk_both_or_neither dbApp (by decide)⟩

/-- C10: the raw-row-to-`Column` mapping of `columnInfo`'s single-column
branch and the per-row mapping of its list branch are the same function: on
every raw row they build field-for-field equal `Column` records. -/
theorem mkColumn_branches_agree :
    ∀ rawColumn : RawColumn,
      mkColumnSingle rawColumn = mkColumnList rawColumn :=
  fun _ => rfl

end MySQL
